import Mathlib

/-!
A shallow embedding of the ParameterLib command-line option parser
(src/ParmeterLib.h and the demonstration table of src/main.cpp), together
with theorems about its behaviour.

Modelling conventions:
* machine `int` is modelled as `Int`/`Nat` (no overflow is exercised);
  the C cast `(char)v` is modelled as `v % 256`;
* `char *optarg` (possibly null) is `Option String`;
* C++ exceptions are an `Except`-style error component in the result:
  `processOptions` returns the error (if any) together with the mutated
  parameter vector and the scanner state, mirroring in-place mutation
  that survives a thrown exception;
* the POSIX scanner `getopt_long` (an external library primitive, not
  part of the repository) is modelled functionally from its documented
  glibc semantics, with two documented simplifications that no theorem
  below depends on: GNU argument permutation is not modelled (scanning
  stops at the first non-option argument, as glibc does under
  POSIXLY_CORRECT; every argument vector used in the theorems has all
  options before non-options, where default glibc behaves identically),
  and long-option names are matched exactly (glibc's unambiguous-prefix
  abbreviation is not modelled; no theorem uses abbreviated names);
* `float` is modelled as `Rat` with exact decimal parsing (no rounding);
  the theorems only use values representable exactly.
-/

namespace Plib

/-- `enum HasArg` from ParmeterLib.h (the misspelling `has_requred_argument`
is the source's). The numeric values are getopt's
`no_argument`/`optional_argument`/`required_argument`. -/
inductive HasArg where
  | has_no_argument
  | has_optional_argument
  | has_requred_argument
deriving DecidableEq, Repr

/-- `enum ExitState` from ParmeterLib.h. -/
inductive ExitState where
  | NoMoreArgs
  | PauseArgsProcessing
deriving DecidableEq, Repr

/-- The tag of the variant `p_parameter_t = std::variant<p_bool, p_int, p_float, p_string>`. -/
inductive PType where
  | pBool
  | pInt
  | pFloat
  | pString
deriving DecidableEq, Repr

/-- A value of one of the four supported payload types. -/
inductive PValue where
  | vBool (b : Bool)
  | vInt (n : Int)
  | vFloat (q : Rat)
  | vString (s : String)
deriving DecidableEq, Repr

/-- Errors thrown by the converters:
`stoiInvalid` models the `std::invalid_argument` thrown by `std::stoi`,
`stofInvalid` the one thrown by `std::stof`, and `nullString` models the
undefined behaviour of `std::string(optarg)` when `optarg == nullptr`
(the specialization `converter<std::string>(char*)` has no null check;
libstdc++ raises `std::logic_error` there). -/
inductive ConvErr where
  | stoiInvalid
  | stofInvalid
  | nullString
deriving DecidableEq, Repr

/-- Errors terminating `processOptions`:
`internalInconsistency c` is the `std::invalid_argument` thrown when the
short-code search fails (message "getopt_long returned short option ...
event though it is not defined."), `flagLogicError` the `std::logic_error`
thrown on the final `else` branch, `conv e` a converter exception
propagating out of `std::visit`, and `outOfFuel` is a modelling artifact
of the fuelled loop (never reached: the fuel passed by `processOptions`
exceeds the number of loop iterations possible on the argument vector). -/
inductive PError where
  | internalInconsistency (c : Int)
  | flagLogicError
  | conv (e : ConvErr)
  | outOfFuel
deriving DecidableEq, Repr

/-- Digit string to number (used by the `stoi`/`stof` models). -/
def digitsVal (ds : List Char) : Nat :=
  ds.foldl (fun a c => a * 10 + (c.toNat - 48)) 0

/-- Split an optional leading sign. -/
def splitSign : List Char → Int × List Char
  | '-' :: r => (-1, r)
  | '+' :: r => (1, r)
  | l => (1, l)

/-- Model of `std::stoi` (base 10): skip leading whitespace, optional
sign, then at least one decimal digit; trailing characters are ignored.
`none` models the `std::invalid_argument` throw when no digits are found.
(`std::out_of_range` is not modelled: `Int` is unbounded.) -/
def parseStoi (s : String) : Option Int :=
  let l := s.toList.dropWhile Char.isWhitespace
  let (sign, l1) := splitSign l
  let ds := l1.takeWhile Char.isDigit
  if ds.isEmpty then none else some (sign * (digitsVal ds : Int))

/-- Model of `std::stof` on decimal text: skip leading whitespace,
optional sign, digits with an optional fractional part; at least one
digit must be present. The value is kept as an exact rational (no
floating-point rounding); exponents/hex/inf forms are not modelled (no
theorem uses them). `none` models the `std::invalid_argument` throw. -/
def parseStof (s : String) : Option Rat :=
  let l := s.toList.dropWhile Char.isWhitespace
  let (sign, l1) := splitSign l
  let ip := l1.takeWhile Char.isDigit
  let r1 := l1.dropWhile Char.isDigit
  match r1 with
  | '.' :: r2 =>
    let fp := r2.takeWhile Char.isDigit
    if ip.isEmpty ∧ fp.isEmpty then none
    else some ((sign : Rat) * ((digitsVal ip : Rat) + (digitsVal fp : Rat) / (10 ^ fp.length)))
  | _ => if ip.isEmpty then none else some ((sign : Rat) * (digitsVal ip : Rat))

/-- `converter<bool>()`: the no-argument default for `bool` (returns `true`). -/
def converterDefaultBool : Bool := true

/-- `converter<T>()` at `T = int`: `static_cast<int>(0)`. -/
def converterDefaultInt : Int := 0

/-- `converter<T>()` at `T = float`: zero. -/
def converterDefaultFloat : Rat := 0

/-- `converter<std::string>()`: the empty string. -/
def converterDefaultString : String := ""

/-- `converter<bool>(char*)`: only the generic template
`template<class T> T converter(char*)` exists for `bool`. A null
argument returns `converter<bool>()` (`true`); otherwise
`std::stringstream ss(optarg); bool r; ss >> r;` extracts a `bool`
without `boolalpha`, i.e. by `num_get` semantics: read a `long`; value 0
gives `false`, value 1 gives `true`, any other value gives `true` (with
failbit), and a failed extraction stores `false` (C++11 zero-on-failure). -/
def converterBool : Option String → Bool
  | none => converterDefaultBool
  | some s =>
    match parseStoi s with
    | some 0 => false
    | some 1 => true
    | some _ => true
    | none => false

/-- `converter<int>(char*)`: null gives 0, otherwise `std::stoi`. -/
def converterInt : Option String → Except ConvErr Int
  | none => .ok 0
  | some s =>
    match parseStoi s with
    | some v => .ok v
    | none => .error .stoiInvalid

/-- `converter<float>(char*)`: null gives 0, otherwise `std::stof`. -/
def converterFloat : Option String → Except ConvErr Rat
  | none => .ok 0
  | some s =>
    match parseStof s with
    | some v => .ok v
    | none => .error .stofInvalid

/-- `converter<std::string>(char*)`: `std::string(optarg)` with NO null
check — a null argument is undefined behaviour, modelled as the
`nullString` error (libstdc++ throws `std::logic_error` there); it does
not return the empty-string default. -/
def converterString : Option String → Except ConvErr String
  | none => .error .nullString
  | some s => .ok s

/-- Dispatch of `arg.convert(optarg)` over the variant alternatives. -/
def convertValue : PType → Option String → Except ConvErr PValue
  | .pBool, a => .ok (.vBool (converterBool a))
  | .pInt, a => (converterInt a).map .vInt
  | .pFloat, a => (converterFloat a).map .vFloat
  | .pString, a => (converterString a).map .vString

/-- Value-initialization `T l_value{}` performed by the `parameter_t`
constructor: `bool` is `false` (note: NOT the converter default `true`),
numeric types zero, `std::string` empty. -/
def initValue : PType → PValue
  | .pBool => .vBool false
  | .pInt => .vInt 0
  | .pFloat => .vFloat 0
  | .pString => .vString ""

/-- `struct parameter_t<T>` together with its variant tag. Field names
follow the source. `l_val` is the `int` option character code. `l_flag`
and `l_incomplete_conv` are initialized by the constructor and never
touched afterwards. -/
structure Parameter where
  ptype : PType
  l_name : String
  l_has_arg : HasArg
  l_val : Nat
  l_flag : Int
  l_seen : Nat
  l_incomplete_conv : Bool
  l_value : PValue
deriving DecidableEq, Repr

/-- The `parameter_t(name, has_arg, val)` constructor:
`l_flag()`, `l_seen(0)`, `l_incomplete_conv(false)`, `l_value()`. -/
def mkParameter (t : PType) (name : String) (ha : HasArg) (val : Nat) : Parameter :=
  ⟨t, name, ha, val, 0, 0, false, initValue t⟩

/-- The demonstration option table of src/main.cpp. -/
def demoParameters : List Parameter :=
  [ mkParameter .pBool "enable" .has_no_argument ('e'.toNat)
  , mkParameter .pInt "start" .has_requred_argument ('s'.toNat)
  , mkParameter .pFloat "pi" .has_requred_argument ('p'.toNat)
  , mkParameter .pString "file" .has_requred_argument ('f'.toNat) ]

/-- One entry of the `struct option[]` array built by `processOptions`:
`options[i].name = l_name.c_str(); options[i].has_arg = l_has_arg;
options[i].val = l_val; options[i].flag = nullptr;` (the all-zero
sentinel entry terminating the C array corresponds to the end of the
list). -/
structure LongOpt where
  name : String
  has_arg : HasArg
  valCode : Nat
deriving DecidableEq, Repr

/-- The `struct option[]` table built from the parameter vector. -/
def buildLongOpts (ps : List Parameter) : List LongOpt :=
  ps.map (fun p => ⟨p.l_name, p.l_has_arg, p.l_val⟩)

/-- The `small_opts` short-code index: `small_opts[i] = (char)arg.l_val`
(the C cast to `char` is modelled as reduction mod 256). -/
def buildSmallOpts (ps : List Parameter) : List Char :=
  ps.map (fun p => Char.ofNat (p.l_val % 256))

/-- The contribution of one parameter to the short-option string:
`ss << small_opts[i]; if (arg.l_has_arg != has_no_argument) ss << ':';`
Note the source emits ONE colon for BOTH `has_requred_argument` and
`has_optional_argument`. -/
def optEntry (p : Parameter) : List Char :=
  Char.ofNat (p.l_val % 256) :: (if p.l_has_arg ≠ .has_no_argument then [':'] else [])

/-- The short-option specification string passed to `getopt_long`
(built left to right over the parameter vector). -/
def buildOptString (ps : List Parameter) : List Char :=
  ps.foldr (fun p acc => optEntry p ++ acc) []

/-- The persistent, process-wide state of the scanner: `optind` (index
of the next argument to scan) and the position inside the current
short-option cluster (`nextchar` in glibc; 0 means "not inside a
cluster"). -/
structure GetoptState where
  optind : Nat
  nextchar : Nat
deriving DecidableEq, Repr

/-- The observable outcome of one `getopt_long` call, as seen by the
caller in ParmeterLib.h: the returned `int c` (−1 at exhaustion, the
option's `val` on a match, `'?' = 63` on errors), whether and how
`*longindex` was written (`none` means getopt left the caller's
`option_index` at its sentinel `parameters.size()`), the global
`optarg`, and the updated scanner state. -/
structure GetoptRet where
  c : Int
  longindex : Option Nat
  optarg : Option String
  st : GetoptState
deriving DecidableEq, Repr

/-- The character of the argument vector `'?'`, returned by `getopt_long`
for unrecognized options, unwanted arguments and missing required
arguments (the option string built here never starts with `':'`). -/
def qmark : Int := 63

/-- Number of colons (0, 1 or 2) following the occurrence of a short
option character at position `p` of the option string. -/
def colonsAt (ostr : List Char) (p : Nat) : Nat :=
  if ostr.getD (p + 1) 'a' = ':' then
    (if ostr.getD (p + 2) 'a' = ':' then 2 else 1)
  else 0

/-- Scan one short option at position `k` inside `argv[optind]`
(glibc's inner loop over a `-abc` cluster). The first occurrence of the
character in the option string decides its argument policy; `':'` itself
never matches. A character absent from the option string, or a required
argument that is missing at the end of the vector, yields `'?'`. -/
def shortStep (argv : List String) (ostr : List Char) (optind k : Nat) : GetoptRet :=
  let arg := (argv.getD optind "").toList
  let ch := arg.getD k ' '
  let advance : GetoptState := if k + 1 < arg.length then ⟨optind, k + 1⟩ else ⟨optind + 1, 0⟩
  match if ch = ':' then none else ostr.findIdx? (fun x => x = ch) with
  | none => ⟨qmark, none, none, advance⟩
  | some p =>
    match colonsAt ostr p with
    | 0 => ⟨(ch.toNat : Int), none, none, advance⟩
    | 1 =>
      if k + 1 < arg.length then
        ⟨(ch.toNat : Int), none, some (String.mk (arg.drop (k + 1))), ⟨optind + 1, 0⟩⟩
      else if optind + 1 < argv.length then
        ⟨(ch.toNat : Int), none, some (argv.getD (optind + 1) ""), ⟨optind + 2, 0⟩⟩
      else
        ⟨qmark, none, none, ⟨optind + 1, 0⟩⟩
    | _ =>
      if k + 1 < arg.length then
        ⟨(ch.toNat : Int), none, some (String.mk (arg.drop (k + 1))), ⟨optind + 1, 0⟩⟩
      else
        ⟨(ch.toNat : Int), none, none, ⟨optind + 1, 0⟩⟩

/-- Split a long-option body at the first `'='`:
`--name=value` gives `(name, some value)`, `--name` gives `(name, none)`. -/
def splitEq (s : List Char) : List Char × Option (List Char) :=
  match s.findIdx? (fun x => x = '=') with
  | none => (s, none)
  | some i => (s.take i, some (s.drop (i + 1)))

/-- Handle a `--name[=value]` token (`rest` is the text after `--`).
`*longindex` is written only on the success paths, exactly as in glibc
(`*longind = option_index` happens after the error returns); every
error path returns `'?'` with `longindex = none`. An unmatched name is
an unrecognized option: also `'?'` with `longindex = none`. -/
def longStep (argv : List String) (lopts : List LongOpt) (optind : Nat) (rest : List Char) : GetoptRet :=
  let (nm, eqArg) := splitEq rest
  match lopts.findIdx? (fun lo => lo.name.toList = nm) with
  | none => ⟨qmark, none, none, ⟨optind + 1, 0⟩⟩
  | some i =>
    let lo := lopts.getD i ⟨"", .has_no_argument, 0⟩
    match lo.has_arg, eqArg with
    | .has_no_argument, some _ => ⟨qmark, none, none, ⟨optind + 1, 0⟩⟩
    | .has_no_argument, none => ⟨(lo.valCode : Int), some i, none, ⟨optind + 1, 0⟩⟩
    | .has_requred_argument, some a =>
      ⟨(lo.valCode : Int), some i, some (String.mk a), ⟨optind + 1, 0⟩⟩
    | .has_requred_argument, none =>
      if optind + 1 < argv.length then
        ⟨(lo.valCode : Int), some i, some (argv.getD (optind + 1) ""), ⟨optind + 2, 0⟩⟩
      else
        ⟨qmark, none, none, ⟨optind + 1, 0⟩⟩
    | .has_optional_argument, a =>
      ⟨(lo.valCode : Int), some i, a.map String.mk, ⟨optind + 1, 0⟩⟩

/-- Functional model of one `getopt_long(argc, argv, ostr, lopts, &longindex)`
call. `"--"` terminates scanning (consuming itself); a bare `"-"` or a
token not starting with `'-'` stops the scan (GNU permutation is not
modelled, see the header comment); `--name...` goes to the long-option
path and `-c...` to the short-option path. A pending cluster position
(`nextchar ≠ 0`) resumes inside the current token. -/
def getoptLong (argv : List String) (ostr : List Char) (lopts : List LongOpt)
    (st : GetoptState) : GetoptRet :=
  if st.nextchar ≠ 0 then shortStep argv ostr st.optind st.nextchar
  else if argv.length ≤ st.optind then ⟨-1, none, none, st⟩
  else
    match (argv.getD st.optind "").toList with
    | '-' :: '-' :: [] => ⟨-1, none, none, ⟨st.optind + 1, 0⟩⟩
    | '-' :: '-' :: rest => longStep argv lopts st.optind rest
    | '-' :: _ :: _ => shortStep argv ostr st.optind 1
    | _ => ⟨-1, none, none, st⟩

instance exceptDecEq {ε α : Type} [DecidableEq ε] [DecidableEq α] :
    DecidableEq (Except ε α) := fun x y =>
  match x, y with
  | .ok a, .ok b => if h : a = b then .isTrue (by rw [h]) else .isFalse (by simp [h])
  | .ok _, .error _ => .isFalse (by simp)
  | .error _, .ok _ => .isFalse (by simp)
  | .error a, .error b => if h : a = b then .isTrue (by rw [h]) else .isFalse (by simp [h])

/-- The visible outcome of a `processOptions` call: the
`options_result_t` (or the exception that terminated the call), the
parameter vector as mutated in place, and the scanner's persistent
state at return (the globals `optind`/`nextchar`). -/
structure ProcOutput where
  res : Except PError (ExitState × Nat)
  params : List Parameter
  st : GetoptState
deriving DecidableEq, Repr

/-- The body of the `std::visit` lambda applied to the matched
descriptor: `++arg.l_seen;` then
`arg.l_value = arg.convert(arg.l_has_arg != has_no_argument ? optarg : nullptr)`.
If the converter throws, `l_seen` has already been incremented and
`l_value` is left unchanged (the assignment never happens); the pair
returns the descriptor state together with the pending exception. -/
def applyMatch (p : Parameter) (optarg : Option String) : Parameter × Option ConvErr :=
  let p1 := { p with l_seen := p.l_seen + 1 }
  match convertValue p.ptype (if p.l_has_arg = .has_no_argument then none else optarg) with
  | .ok v => ({ p1 with l_value := v }, none)
  | .error e => (p1, some e)

/-- `std::visit(..., parameters[option_index])`: update element `i` in
place. (The index is always in range when the tables were built from
`ps`; an out-of-range index leaves the vector unchanged.) -/
def applyAt (ps : List Parameter) (i : Nat) (optarg : Option String) :
    List Parameter × Option ConvErr :=
  match ps[i]? with
  | none => (ps, none)
  | some p =>
    let (p', e) := applyMatch p optarg
    (ps.set i p', e)

/-- Resolution of `option_index` after a `c > 0` return: the caller set
`option_index = parameters.size()` before the call; if `getopt_long`
wrote it (long option), use that, otherwise search `small_opts` for
`(char)c` (`std::find(so_begin, so_end, (char)c)` returns the FIRST
occurrence). `none` is the not-found case that makes the source throw
its "short option not defined" `std::invalid_argument`. -/
def dispatchIndex (li : Option Nat) (sopts : List Char) (c : Int) : Option Nat :=
  match li with
  | some i => some i
  | none => sopts.findIdx? (fun ch => ch = Char.ofNat (c.toNat % 256))

/-- The outcome of one iteration of the `while (true)` loop: either the
function returns/throws, or the loop continues with updated state. -/
inductive StepRes where
  | done (o : ProcOutput)
  | next (ps : List Parameter) (st : GetoptState)
deriving DecidableEq, Repr

/-- One iteration of the scan loop of `processOptions`:
call `getopt_long`; on `c == -1` return `{NoMoreArgs, optind}`; on
`c > 0` resolve the descriptor (throwing `internalInconsistency` when
the short-code search fails), apply the match (propagating a converter
exception, with the in-place mutations made so far kept); otherwise
throw the `flag` `std::logic_error`. -/
def processStep (argv : List String) (ostr : List Char) (lopts : List LongOpt)
    (sopts : List Char) (ps : List Parameter) (st : GetoptState) : StepRes :=
  let r := getoptLong argv ostr lopts st
  if r.c = -1 then .done ⟨.ok (.NoMoreArgs, r.st.optind), ps, r.st⟩
  else if 0 < r.c then
    match dispatchIndex r.longindex sopts r.c with
    | none => .done ⟨.error (.internalInconsistency r.c), ps, r.st⟩
    | some i =>
      match applyAt ps i r.optarg with
      | (ps', some e) => .done ⟨.error (.conv e), ps', r.st⟩
      | (ps', none) => .next ps' r.st
  else .done ⟨.error .flagLogicError, ps, r.st⟩

/-- The `while (true)` loop, fuelled (the C++ loop terminates because
the scanner advances through the bounded argument vector on every
iteration; `processOptions` passes fuel exceeding the possible number
of iterations, so the `outOfFuel` artifact is never reached). -/
def processLoop (argv : List String) (ostr : List Char) (lopts : List LongOpt)
    (sopts : List Char) : Nat → List Parameter → GetoptState → ProcOutput
  | 0, ps, st => ⟨.error .outOfFuel, ps, st⟩
  | fuel + 1, ps, st =>
    match processStep argv ostr lopts sopts ps st with
    | .done o => o
    | .next ps' st' => processLoop argv ostr lopts sopts fuel ps' st'

/-- Fuel bound: one more than the total number of characters in the
argument vector plus one per argument (each loop iteration either
terminates the call or strictly advances the scanner's position). -/
def fuelFor (argv : List String) : Nat :=
  argv.foldl (fun a s => a + s.length + 1) 1

/-- `processOptions(argc, argv, parameters)` of ParmeterLib.h: build the
`struct option[]` table, the `small_opts` index and the short-option
string from the parameter vector, then run the scan loop from the given
scanner state (the scanner's cursor is process-wide persistent state, so
it is threaded explicitly; a fresh process starts at `optind = 1`). -/
def processOptions (ps : List Parameter) (argv : List String) (st : GetoptState) : ProcOutput :=
  processLoop argv (buildOptString ps) (buildLongOpts ps) (buildSmallOpts ps)
    (fuelFor argv) ps st

/-- The immutable part of a descriptor: every field except the two the
dispatcher is allowed to mutate (`l_seen` and `l_value`). -/
def immut (p : Parameter) : PType × String × HasArg × Nat × Int × Bool :=
  (p.ptype, p.l_name, p.l_has_arg, p.l_val, p.l_flag, p.l_incomplete_conv)

/-- A table with two descriptors sharing the short code `'x'`
(violating the spec's uniqueness precondition). -/
def dupShortParameters : List Parameter :=
  [ mkParameter .pInt "alpha" .has_no_argument ('x'.toNat)
  , mkParameter .pBool "beta" .has_no_argument ('x'.toNat) ]

/-- The `start` descriptor of the demonstration table with a given
occurrence count and stored value. -/
def startWith (n : Nat) (v : PValue) : Parameter :=
  ⟨.pInt, "start", .has_requred_argument, 's'.toNat, 0, n, false, v⟩

/-- The `enable` descriptor of the demonstration table after one match. -/
def enableSeen1 : Parameter :=
  ⟨.pBool, "enable", .has_no_argument, 'e'.toNat, 0, 1, false, .vBool true⟩

/-- Parameter-vector component of a loop-step outcome. -/
def stepParams : StepRes → List Parameter
  | .done o => o.params
  | .next ps _ => ps

end Plib

namespace Plib

theorem applyMatch_immut (p : Parameter) (a : Option String) :
    immut (applyMatch p a).1 = immut p := by
  unfold applyMatch
  cases convertValue p.ptype (if p.l_has_arg = .has_no_argument then none else a) <;> rfl

theorem map_set_of_getElem {α β : Type} (f : α → β) :
    ∀ (l : List α) (i : Nat) (x : α), l[i]? = some x →
      (l.map f).set i (f x) = l.map f
  | [], i, x, h => by simp at h
  | a :: l, 0, x, h => by
    simp only [List.getElem?_cons_zero, Option.some.injEq] at h
    subst h; rfl
  | a :: l, i + 1, x, h => by
    simp only [List.getElem?_cons_succ] at h
    simp only [List.map_cons, List.set_cons_succ, List.cons.injEq, true_and]
    exact map_set_of_getElem f l i x h

theorem applyAt_immut (ps : List Parameter) (i : Nat) (a : Option String) :
    ((applyAt ps i a).1).map immut = ps.map immut := by
  unfold applyAt
  cases h : ps[i]? with
  | none => rfl
  | some p =>
    simp only
    rw [List.map_set, applyMatch_immut]
    exact map_set_of_getElem immut ps i p h

theorem processStep_immut (argv : List String) (ostr : List Char) (lopts : List LongOpt)
    (sopts : List Char) (ps : List Parameter) (st : GetoptState) :
    (stepParams (processStep argv ostr lopts sopts ps st)).map immut = ps.map immut := by
  simp only [processStep]
  split
  · rfl
  · split
    · split
      · rfl
      · rename_i idx hd
        have h := applyAt_immut ps idx (getoptLong argv ostr lopts st).optarg
        cases heq : applyAt ps idx (getoptLong argv ostr lopts st).optarg with
        | mk ps' e? =>
          rw [heq] at h
          cases e? <;> simpa [stepParams] using h
    · rfl

theorem processLoop_immut (argv : List String) (ostr : List Char) (lopts : List LongOpt)
    (sopts : List Char) :
    ∀ (fuel : Nat) (ps : List Parameter) (st : GetoptState),
      ((processLoop argv ostr lopts sopts fuel ps st).params).map immut = ps.map immut
  | 0, ps, st => rfl
  | fuel + 1, ps, st => by
    simp only [processLoop]
    cases hs : processStep argv ostr lopts sopts ps st with
    | done o =>
      have h := processStep_immut argv ostr lopts sopts ps st
      rw [hs] at h
      exact h
    | next ps' st' =>
      have h := processStep_immut argv ostr lopts sopts ps st
      rw [hs] at h
      calc ((processLoop argv ostr lopts sopts fuel ps' st').params).map immut
          = ps'.map immut := processLoop_immut argv ostr lopts sopts fuel ps' st'
        _ = ps.map immut := h

theorem processStep_done_ok (argv : List String) (ostr : List Char) (lopts : List LongOpt)
    (sopts : List Char) (ps : List Parameter) (st : GetoptState) (o : ProcOutput)
    (r : ExitState × Nat) (h1 : processStep argv ostr lopts sopts ps st = .done o)
    (h2 : o.res = .ok r) : r.1 = .NoMoreArgs ∧ r.2 = o.st.optind := by
  simp only [processStep] at h1
  split at h1
  · cases h1
    simp only [Except.ok.injEq] at h2
    subst h2
    exact ⟨rfl, rfl⟩
  · split at h1
    · split at h1
      · cases h1
        simp at h2
      · cases heq : applyAt ps _ (getoptLong argv ostr lopts st).optarg with
        | mk ps' e? =>
          rw [heq] at h1
          cases e? with
          | none => simp at h1
          | some e =>
            simp only at h1
            cases h1
            simp at h2
    · cases h1
      simp at h2

theorem processLoop_ok (argv : List String) (ostr : List Char) (lopts : List LongOpt)
    (sopts : List Char) :
    ∀ (fuel : Nat) (ps : List Parameter) (st : GetoptState) (r : ExitState × Nat),
      (processLoop argv ostr lopts sopts fuel ps st).res = .ok r →
      r.1 = .NoMoreArgs ∧ r.2 = (processLoop argv ostr lopts sopts fuel ps st).st.optind
  | 0, ps, st, r, h => by simp [processLoop] at h
  | fuel + 1, ps, st, r, h => by
    simp only [processLoop] at h ⊢
    cases hs : processStep argv ostr lopts sopts ps st with
    | done o =>
      rw [hs] at h
      exact processStep_done_ok argv ostr lopts sopts ps st o r hs h
    | next ps' st' =>
      rw [hs] at h
      exact processLoop_ok argv ostr lopts sopts fuel ps' st' r h

theorem processStep_eof (argv : List String) (ostr : List Char) (lopts : List LongOpt)
    (sopts : List Char) (ps : List Parameter) (st : GetoptState)
    (h : (getoptLong argv ostr lopts st).c = -1) :
    processStep argv ostr lopts sopts ps st =
      .done ⟨.ok (.NoMoreArgs, (getoptLong argv ostr lopts st).st.optind), ps,
             (getoptLong argv ostr lopts st).st⟩ := by
  simp [processStep, h]

theorem processLoop_done (argv : List String) (ostr : List Char) (lopts : List LongOpt)
    (sopts : List Char) (ps : List Parameter) (st : GetoptState) (o : ProcOutput)
    (fuel : Nat) (h0 : fuel ≠ 0)
    (h : processStep argv ostr lopts sopts ps st = .done o) :
    processLoop argv ostr lopts sopts fuel ps st = o := by
  cases fuel with
  | zero => exact absurd rfl h0
  | succ n => simp [processLoop, h]

theorem processLoop_next (argv : List String) (ostr : List Char) (lopts : List LongOpt)
    (sopts : List Char) (ps ps' : List Parameter) (st st' : GetoptState) (fuel : Nat)
    (h : processStep argv ostr lopts sopts ps st = .next ps' st') :
    processLoop argv ostr lopts sopts (fuel + 1) ps st =
      processLoop argv ostr lopts sopts fuel ps' st' := by
  simp [processLoop, h]

theorem convertValue_int_none (t : String) (h : parseStoi t = none) :
    convertValue .pInt (some t) = .error .stoiInvalid := by
  simp [convertValue, converterInt, Except.map, h]

theorem convertValue_int_some (t : String) (v : Int) (h : parseStoi t = some v) :
    convertValue .pInt (some t) = .ok (.vInt v) := by
  simp [convertValue, converterInt, Except.map, h]

theorem convertValue_float_none (t : String) (h : parseStof t = none) :
    convertValue .pFloat (some t) = .error .stofInvalid := by
  simp [convertValue, converterFloat, Except.map, h]

theorem processStep_start_fail (t : String) (h : parseStoi t = none) :
    processStep ["prog", "--start", t] (buildOptString demoParameters)
        (buildLongOpts demoParameters) (buildSmallOpts demoParameters)
        demoParameters ⟨1, 0⟩ =
      .done ⟨.error (.conv .stoiInvalid),
             demoParameters.set 1 (startWith 1 (.vInt 0)), ⟨3, 0⟩⟩ := by
  have hg : getoptLong ["prog", "--start", t] (buildOptString demoParameters)
      (buildLongOpts demoParameters) ⟨1, 0⟩ = ⟨115, some 1, some t, ⟨3, 0⟩⟩ := rfl
  have hc := convertValue_int_none t h
  simp only [processStep, hg]
  simp [dispatchIndex, applyAt, applyMatch, hc, demoParameters, mkParameter, initValue,
    startWith]

theorem processStep_pi_fail (t : String) (h : parseStof t = none) :
    processStep ["prog", "--pi", t] (buildOptString demoParameters)
        (buildLongOpts demoParameters) (buildSmallOpts demoParameters)
        demoParameters ⟨1, 0⟩ =
      .done ⟨.error (.conv .stofInvalid),
             demoParameters.set 2 ⟨.pFloat, "pi", .has_requred_argument, 'p'.toNat, 0, 1, false, .vFloat 0⟩,
             ⟨3, 0⟩⟩ := by
  have hg : getoptLong ["prog", "--pi", t] (buildOptString demoParameters)
      (buildLongOpts demoParameters) ⟨1, 0⟩ = ⟨112, some 2, some t, ⟨3, 0⟩⟩ := rfl
  have hc := convertValue_float_none t h
  simp only [processStep, hg]
  simp [dispatchIndex, applyAt, applyMatch, hc, demoParameters, mkParameter, initValue]

/-- C5: a malformed numeric token attached to an int- or float-typed
descriptor makes the conversion fail, and the conversion error
propagates out of the whole `processOptions` call (the result of the
call itself is the conversion error, not a defaulted success): for
every token `ti` rejected by the `stoi` model, `["prog","--start",ti]`
fails the call with the `stoi` conversion error, and for every token
`tf` rejected by the `stof` model, `["prog","--pi",tf]` fails the call
with the `stof` conversion error. -/
theorem c5_conversion_error_propagates_to_caller :
    ∀ (ti tf : String), parseStoi ti = none → parseStof tf = none →
      (processOptions demoParameters ["prog", "--start", ti] ⟨1, 0⟩).res =
          .error (.conv .stoiInvalid) ∧
      (processOptions demoParameters ["prog", "--pi", tf] ⟨1, 0⟩).res =
          .error (.conv .stofInvalid) := by
  intro ti tf hi hf
  constructor
  · have hfe : fuelFor ["prog", "--start", ti] ≠ 0 := by
      simp only [fuelFor, List.foldl]
      omega
    rw [processOptions, processLoop_done ["prog", "--start", ti] (buildOptString demoParameters)
      (buildLongOpts demoParameters) (buildSmallOpts demoParameters) demoParameters ⟨1, 0⟩ _
      (fuelFor ["prog", "--start", ti]) hfe (processStep_start_fail ti hi)]
  · have hfe : fuelFor ["prog", "--pi", tf] ≠ 0 := by
      simp only [fuelFor, List.foldl]
      omega
    rw [processOptions, processLoop_done ["prog", "--pi", tf] (buildOptString demoParameters)
      (buildLongOpts demoParameters) (buildSmallOpts demoParameters) demoParameters ⟨1, 0⟩ _
      (fuelFor ["prog", "--pi", tf]) hfe (processStep_pi_fail tf hf)]

/-- Witness for C5: the spec's own example tokens — "abc" for the
integer option and "xyz" for the float option — satisfy the
malformed-token hypotheses, and both calls fail with the corresponding
conversion error. -/
theorem c5_witness :
    parseStoi "abc" = none ∧ parseStof "xyz" = none ∧
    (processOptions demoParameters ["prog", "--start", "abc"] ⟨1, 0⟩).res =
        .error (.conv .stoiInvalid) ∧
    (processOptions demoParameters ["prog", "--pi", "xyz"] ⟨1, 0⟩).res =
        .error (.conv .stofInvalid) :=
  ⟨by decide, by decide,
   (c5_conversion_error_propagates_to_caller "abc" "xyz" (by decide) (by decide)).1,
   (c5_conversion_error_propagates_to_caller "abc" "xyz" (by decide) (by decide)).2⟩

/-- C1 (code_bug evidence): for `["prog","--bogus"]` — an option token
matching option syntax but absent from the declared table — the scanner
returns `'?' = 63` without writing the caller's `option_index`, so
`processOptions` takes its `c > 0` ("known argument") branch, fails the
short-code search for `'?'`, and throws the very `std::invalid_argument`
reserved for the internal inconsistency of a dispatch key absent from
the descriptor table. The call therefore does NOT fail with a distinct
"unrecognized option" error: both situations raise the identical
internal-inconsistency error. -/
theorem c1_unrecognized_option_raises_internal_inconsistency :
    processOptions demoParameters ["prog", "--bogus"] ⟨1, 0⟩ =
      ⟨.error (.internalInconsistency 63), demoParameters, ⟨2, 0⟩⟩ ∧
    (63 : Int) = ('?'.toNat : Int) := by
  exact ⟨rfl, rfl⟩

/-- C2 (code_bug evidence): the short-option specification string built
by `processOptions` appends exactly ONE colon for an optional-argument
descriptor — the same encoding as a required-argument descriptor — and
not the two colons the claim (and POSIX getopt convention) require, so
the required/optional distinction is lost in the string. -/
theorem c2_optional_argument_encoded_with_one_colon :
    buildOptString [mkParameter .pInt "level" .has_optional_argument ('l'.toNat)] = ['l', ':'] ∧
    buildOptString [mkParameter .pInt "level" .has_optional_argument ('l'.toNat)] ≠ ['l', ':', ':'] ∧
    buildOptString [mkParameter .pInt "level" .has_optional_argument ('l'.toNat)] =
      buildOptString [mkParameter .pInt "level" .has_requred_argument ('l'.toNat)] := by
  refine ⟨rfl, ?_, rfl⟩
  decide

/-- C3 (code_bug evidence): the absent-token/default contract holds for
`bool`, `int` and `float` (null input yields the no-argument default),
but fails for `std::string`: `converter<std::string>(char*)` constructs
`std::string(optarg)` with no null check, which on null input is
undefined behaviour (modelled as the `nullString` error) instead of the
empty-string default. -/
theorem c3_null_token_default_fails_for_string :
    converterBool none = converterDefaultBool ∧
    converterInt none = .ok converterDefaultInt ∧
    converterFloat none = .ok converterDefaultFloat ∧
    converterString none = .error .nullString ∧
    converterString none ≠ .ok converterDefaultString := by
  refine ⟨rfl, rfl, rfl, rfl, ?_⟩
  decide

/-- C4 (counterexample): the claim that `converter<bool>` yields `true`
for EVERY non-null token fails at the token `"0"`: the generic stream
extraction parses `"0"` as the boolean `false`. -/
theorem c4_counterexample_bool_token_zero :
    ¬ converterBool (some "0") = true := by
  decide

/-- C4 (amended): `converter<bool>` yields `true` on absent input, but a
non-null token is NOT ignored: the only `bool` converter taking text is
the generic stream-extraction template, which parses `"0"` as `false`
and `"1"` as `true`. -/
theorem c4_amended_bool_conversion :
    converterBool none = true ∧
    converterBool (some "0") = false ∧
    converterBool (some "1") = true := by
  refine ⟨rfl, ?_, ?_⟩ <;> decide

/-- C6: whenever the scanner signals exhaustion, `processOptions`
returns `NoMoreArgs` paired with the scanner's own cursor at
termination (the only way an `ok` result arises); in particular, on
`["prog","-e","--","residual1","residual2"]` against the demonstration
table, the call returns residual-start index 3 — pointing at
`"residual1"` — with the `enable` descriptor's occurrence count at 1. -/
theorem c6_exhaustion_returns_no_more_args_with_residual_cursor :
    (∀ (ps : List Parameter) (argv : List String) (st : GetoptState) (r : ExitState × Nat),
        (processOptions ps argv st).res = .ok r →
        r.1 = .NoMoreArgs ∧ r.2 = (processOptions ps argv st).st.optind) ∧
    processOptions demoParameters ["prog", "-e", "--", "residual1", "residual2"] ⟨1, 0⟩ =
      ⟨.ok (.NoMoreArgs, 3),
       [enableSeen1,
        mkParameter .pInt "start" .has_requred_argument ('s'.toNat),
        mkParameter .pFloat "pi" .has_requred_argument ('p'.toNat),
        mkParameter .pString "file" .has_requred_argument ('f'.toNat)],
       ⟨3, 0⟩⟩ ∧
    ["prog", "-e", "--", "residual1", "residual2"].getD 3 "" = "residual1" := by
  refine ⟨?_, rfl, rfl⟩
  intro ps argv st r h
  exact processLoop_ok argv (buildOptString ps) (buildLongOpts ps) (buildSmallOpts ps)
    (fuelFor argv) ps st r h

/-- Witness for C6: the concrete run of the claim satisfies the
hypothesis of the general conjunct, which then yields `NoMoreArgs` and
the scanner cursor 3. -/
theorem c6_witness :
    (processOptions demoParameters ["prog", "-e", "--", "residual1", "residual2"] ⟨1, 0⟩).res =
        .ok (.NoMoreArgs, 3) ∧
    ((ExitState.NoMoreArgs, 3) : ExitState × Nat).1 = .NoMoreArgs ∧
    ((ExitState.NoMoreArgs, 3) : ExitState × Nat).2 =
      (processOptions demoParameters ["prog", "-e", "--", "residual1", "residual2"] ⟨1, 0⟩).st.optind :=
  ⟨by decide,
   (c6_exhaustion_returns_no_more_args_with_residual_cursor.1 demoParameters
      ["prog", "-e", "--", "residual1", "residual2"] ⟨1, 0⟩ (.NoMoreArgs, 3) (by decide)).1,
   (c6_exhaustion_returns_no_more_args_with_residual_cursor.1 demoParameters
      ["prog", "-e", "--", "residual1", "residual2"] ⟨1, 0⟩ (.NoMoreArgs, 3) (by decide)).2⟩

theorem processStep_start_match (t : String) (v : Int) (n : Nat) (w : PValue)
    (h : parseStoi t = some v) :
    processStep ["prog", "--start", t]
        (buildOptString (demoParameters.set 1 (startWith n w)))
        (buildLongOpts (demoParameters.set 1 (startWith n w)))
        (buildSmallOpts (demoParameters.set 1 (startWith n w)))
        (demoParameters.set 1 (startWith n w)) ⟨1, 0⟩ =
      .next (demoParameters.set 1 (startWith (n + 1) (.vInt v))) ⟨3, 0⟩ := by
  have hg : getoptLong ["prog", "--start", t]
      (buildOptString (demoParameters.set 1 (startWith n w)))
      (buildLongOpts (demoParameters.set 1 (startWith n w))) ⟨1, 0⟩ =
      ⟨115, some 1, some t, ⟨3, 0⟩⟩ := rfl
  have hc := convertValue_int_some t v h
  simp only [processStep, hg]
  simp [dispatchIndex, applyAt, applyMatch, hc, demoParameters, mkParameter, initValue,
    startWith]

/-- C7: every successful match is resolved to its owning descriptor,
whose occurrence count is incremented by exactly one and whose stored
value is overwritten with the conversion layer's result. Conjuncts:
(1) a long-option match (resolved by the direct table index) on the
`start` descriptor with any parsable token `t ↦ v` and any prior
count/value `(n, w)` ends the call with count `n+1` and value `v`;
(2) the visit lambda increments the matched descriptor's count by
exactly one, for every descriptor and argument;
(3) a short-option match `-s 7` (resolved by searching the short-code
index) updates the same `start` descriptor;
(4) a no-argument match `-e` passes NO text to the converter, storing
`converter<bool>(nullptr) = true`;
(5) the spec's typed-options example updates all three argument-taking
descriptors with their converted values and counts of 1, and
(6) the float value stored for `--pi 3.5` is the rational 7/2. -/
theorem c7_match_updates_owning_descriptor :
    (∀ (t : String) (v : Int) (n : Nat) (w : PValue), parseStoi t = some v →
        processOptions (demoParameters.set 1 (startWith n w)) ["prog", "--start", t] ⟨1, 0⟩ =
          ⟨.ok (.NoMoreArgs, 3), demoParameters.set 1 (startWith (n + 1) (.vInt v)), ⟨3, 0⟩⟩) ∧
    (∀ (p : Parameter) (a : Option String), ((applyMatch p a).1).l_seen = p.l_seen + 1) ∧
    processOptions demoParameters ["prog", "-s", "7"] ⟨1, 0⟩ =
      ⟨.ok (.NoMoreArgs, 3), demoParameters.set 1 (startWith 1 (.vInt 7)), ⟨3, 0⟩⟩ ∧
    processOptions demoParameters ["prog", "-e"] ⟨1, 0⟩ =
      ⟨.ok (.NoMoreArgs, 2), demoParameters.set 0 enableSeen1, ⟨2, 0⟩⟩ ∧
    processOptions demoParameters ["prog", "--start", "42", "--pi", "3.5", "--file", "out.txt"] ⟨1, 0⟩ =
      ⟨.ok (.NoMoreArgs, 7),
       [mkParameter .pBool "enable" .has_no_argument ('e'.toNat),
        startWith 1 (.vInt 42),
        ⟨.pFloat, "pi", .has_requred_argument, 'p'.toNat, 0, 1, false, .vFloat ((parseStof "3.5").getD 0)⟩,
        ⟨.pString, "file", .has_requred_argument, 'f'.toNat, 0, 1, false, .vString "out.txt"⟩],
       ⟨7, 0⟩⟩ ∧
    parseStof "3.5" = some (7 / 2) := by
  refine ⟨?_, ?_, rfl, rfl, rfl, ?_⟩
  · intro t v n w h
    have hstep2 : processStep ["prog", "--start", t]
        (buildOptString (demoParameters.set 1 (startWith n w)))
        (buildLongOpts (demoParameters.set 1 (startWith n w)))
        (buildSmallOpts (demoParameters.set 1 (startWith n w)))
        (demoParameters.set 1 (startWith (n + 1) (.vInt v))) ⟨3, 0⟩ =
        .done ⟨.ok (.NoMoreArgs, 3), demoParameters.set 1 (startWith (n + 1) (.vInt v)),
               ⟨3, 0⟩⟩ := rfl
    have hfe : 2 ≤ fuelFor ["prog", "--start", t] := by
      simp only [fuelFor, List.foldl]
      omega
    obtain ⟨m, hm1, hm2⟩ :
        ∃ m, fuelFor ["prog", "--start", t] = m + 1 ∧ m ≠ 0 :=
      ⟨fuelFor ["prog", "--start", t] - 1, by omega, by omega⟩
    show processLoop ["prog", "--start", t]
        (buildOptString (demoParameters.set 1 (startWith n w)))
        (buildLongOpts (demoParameters.set 1 (startWith n w)))
        (buildSmallOpts (demoParameters.set 1 (startWith n w)))
        (fuelFor ["prog", "--start", t]) (demoParameters.set 1 (startWith n w)) ⟨1, 0⟩ = _
    rw [hm1,
      processLoop_next _ _ _ _ _ _ _ _ m (processStep_start_match t v n w h),
      processLoop_done _ _ _ _ _ _ _ m hm2 hstep2]
  · intro p a
    unfold applyMatch
    cases convertValue p.ptype (if p.l_has_arg = .has_no_argument then none else a) <;> rfl
  · simp [parseStof, splitSign, digitsVal]
    norm_num

/-- Witness for C7: token "42" parses to 42, and the call on the
pristine table updates `start` to count 1 and value 42. -/
theorem c7_witness :
    parseStoi "42" = some 42 ∧
    processOptions (demoParameters.set 1 (startWith 0 (.vInt 0))) ["prog", "--start", "42"] ⟨1, 0⟩ =
      ⟨.ok (.NoMoreArgs, 3), demoParameters.set 1 (startWith (0 + 1) (.vInt 42)), ⟨3, 0⟩⟩ :=
  ⟨by decide, c7_match_updates_owning_descriptor.1 "42" 42 0 (.vInt 0) (by decide)⟩

theorem processStep_enable_then_start (t : String) (n : Nat) (w : PValue) :
    processStep ["prog", "-e", "--start", t]
        (buildOptString (demoParameters.set 1 (startWith n w)))
        (buildLongOpts (demoParameters.set 1 (startWith n w)))
        (buildSmallOpts (demoParameters.set 1 (startWith n w)))
        (demoParameters.set 1 (startWith n w)) ⟨1, 0⟩ =
      .next ((demoParameters.set 1 (startWith n w)).set 0 enableSeen1) ⟨2, 0⟩ := rfl

theorem processStep_start_fail_after_enable (t : String) (n : Nat) (w : PValue)
    (h : parseStoi t = none) :
    processStep ["prog", "-e", "--start", t]
        (buildOptString (demoParameters.set 1 (startWith n w)))
        (buildLongOpts (demoParameters.set 1 (startWith n w)))
        (buildSmallOpts (demoParameters.set 1 (startWith n w)))
        ((demoParameters.set 1 (startWith n w)).set 0 enableSeen1) ⟨2, 0⟩ =
      .done ⟨.error (.conv .stoiInvalid),
             (demoParameters.set 0 enableSeen1).set 1 (startWith (n + 1) w), ⟨4, 0⟩⟩ := by
  have hg : getoptLong ["prog", "-e", "--start", t]
      (buildOptString (demoParameters.set 1 (startWith n w)))
      (buildLongOpts (demoParameters.set 1 (startWith n w))) ⟨2, 0⟩ =
      ⟨115, some 1, some t, ⟨4, 0⟩⟩ := rfl
  have hc := convertValue_int_none t h
  simp only [processStep, hg]
  simp [dispatchIndex, applyAt, applyMatch, hc, demoParameters, mkParameter, initValue,
    startWith, enableSeen1]

/-- C9: when a match's value conversion fails, the failing descriptor's
occurrence count has already been incremented (from any `n` to `n+1`)
at the point the conversion error propagates, while its stored value is
left unchanged (any prior `w` is preserved), and the descriptor matched
earlier in the same call (`enable`) keeps its applied update. -/
theorem c9_failed_conversion_increments_count_keeps_value :
    ∀ (t : String) (n : Nat) (w : PValue), parseStoi t = none →
      processOptions (demoParameters.set 1 (startWith n w)) ["prog", "-e", "--start", t] ⟨1, 0⟩ =
        ⟨.error (.conv .stoiInvalid),
         (demoParameters.set 0 enableSeen1).set 1 (startWith (n + 1) w), ⟨4, 0⟩⟩ := by
  intro t n w h
  have hfe : 2 ≤ fuelFor ["prog", "-e", "--start", t] := by
    simp only [fuelFor, List.foldl]
    omega
  obtain ⟨m, hm1, hm2⟩ :
      ∃ m, fuelFor ["prog", "-e", "--start", t] = m + 1 ∧ m ≠ 0 :=
    ⟨fuelFor ["prog", "-e", "--start", t] - 1, by omega, by omega⟩
  show processLoop ["prog", "-e", "--start", t]
      (buildOptString (demoParameters.set 1 (startWith n w)))
      (buildLongOpts (demoParameters.set 1 (startWith n w)))
      (buildSmallOpts (demoParameters.set 1 (startWith n w)))
      (fuelFor ["prog", "-e", "--start", t]) (demoParameters.set 1 (startWith n w)) ⟨1, 0⟩ = _
  rw [hm1,
    processLoop_next _ _ _ _ _ _ _ _ m (processStep_enable_then_start t n w),
    processLoop_done _ _ _ _ _ _ _ m hm2 (processStep_start_fail_after_enable t n w h)]

/-- Witness for C9: token "abc" fails integer parsing; on the pristine
table the call errors with `start` at count 1, value still 0, and
`enable` keeping its update. -/
theorem c9_witness :
    parseStoi "abc" = none ∧
    processOptions (demoParameters.set 1 (startWith 0 (.vInt 0))) ["prog", "-e", "--start", "abc"] ⟨1, 0⟩ =
      ⟨.error (.conv .stoiInvalid),
       (demoParameters.set 0 enableSeen1).set 1 (startWith (0 + 1) (.vInt 0)), ⟨4, 0⟩⟩ :=
  ⟨by decide, c9_failed_conversion_increments_count_keeps_value "abc" 0 (.vInt 0) (by decide)⟩

/-- C8: a `processOptions` call leaves every field of every descriptor
other than the occurrence count (`l_seen`) and the stored value
(`l_value`) unchanged — type tag, name, argument policy, short code,
`l_flag` and `l_incomplete_conv` — and preserves the collection's
length and element order (for any table, argument vector and scanner
state, including runs that end in an error). -/
theorem c8_process_options_mutates_only_seen_and_value :
    ∀ (ps : List Parameter) (argv : List String) (st : GetoptState),
      ((processOptions ps argv st).params).map immut = ps.map immut ∧
      ((processOptions ps argv st).params).length = ps.length := by
  intro ps argv st
  have h := processLoop_immut argv (buildOptString ps) (buildLongOpts ps) (buildSmallOpts ps)
    (fuelFor argv) ps st
  refine ⟨h, ?_⟩
  have h2 := congrArg List.length h
  simpa using h2

/-- C10: when two descriptors share the short code `'x'`, the
short-code index holds the code twice, the search resolves a `-x` match
to the first occurrence (index 0), and only that first descriptor's
count and value are updated; the later duplicate is untouched. -/
theorem c10_duplicate_short_code_attributed_to_first :
    dispatchIndex none (buildSmallOpts dupShortParameters) ('x'.toNat : Int) = some 0 ∧
    buildSmallOpts dupShortParameters = ['x', 'x'] ∧
    processOptions dupShortParameters ["prog", "-x"] ⟨1, 0⟩ =
      ⟨.ok (.NoMoreArgs, 2),
       [⟨.pInt, "alpha", .has_no_argument, 'x'.toNat, 0, 1, false, .vInt 0⟩,
        mkParameter .pBool "beta" .has_no_argument ('x'.toNat)],
       ⟨2, 0⟩⟩ := by
  exact ⟨rfl, rfl, rfl⟩

end Plib
